import Mathlib

/-!
Shallow embedding of the KYC workflow core:
`app/workflows/states.py`, `app/services/workflow_service.py` and
`app/services/kyc_service.py`.

States of the `WorkflowState` / `KYCStatus` string enums are embedded as
their string values (the Python classes are `str` mixin enums, so catalog
keys and application statuses compare by string value).  Python dicts are
embedded as association lists with insertion-order semantics (a duplicate
key overwrites the stored value in place).  Floating point scores are
embedded as exact rationals; all score literals in the source (0.95, 0.75,
0.5, 0.4, 0.2, 0.3) are used only in comparisons and products where the
exact values do not affect any of the statements below.
-/

namespace KYC

/-- `StateTransition` dataclass from `app/workflows/states.py`. -/
structure StateTransition where
  from_state : String
  to_state : String
  required_conditions : List String
  allowed_roles : List String
deriving DecidableEq, Repr

/-- The static `WORKFLOW_TRANSITIONS` list from `app/workflows/states.py`. -/
def WORKFLOW_TRANSITIONS : List StateTransition := [
  { from_state := "draft", to_state := "submitted",
    required_conditions := ["has_required_documents", "has_customer_data"],
    allowed_roles := ["api_client", "agent"] },
  { from_state := "submitted", to_state := "document_verification",
    required_conditions := ["documents_uploaded"],
    allowed_roles := ["system"] },
  { from_state := "document_verification", to_state := "face_verification",
    required_conditions := ["documents_verified"],
    allowed_roles := ["system"] },
  { from_state := "document_verification", to_state := "manual_review",
    required_conditions := ["low_confidence_score"],
    allowed_roles := ["system"] },
  { from_state := "face_verification", to_state := "approved",
    required_conditions := ["high_confidence_score", "all_checks_passed"],
    allowed_roles := ["system"] },
  { from_state := "face_verification", to_state := "manual_review",
    required_conditions := ["medium_confidence_score"],
    allowed_roles := ["system"] },
  { from_state := "face_verification", to_state := "rejected",
    required_conditions := ["failed_verification"],
    allowed_roles := ["system"] },
  { from_state := "manual_review", to_state := "approved",
    required_conditions := ["agent_approved"],
    allowed_roles := ["agent", "supervisor"] },
  { from_state := "manual_review", to_state := "rejected",
    required_conditions := ["agent_rejected"],
    allowed_roles := ["agent", "supervisor"] },
  { from_state := "submitted", to_state := "expired",
    required_conditions := ["application_expired"],
    allowed_roles := ["system"] }]

/-- The key of a transition in the engine's dict: `(t.from_state, t.to_state)`. -/
def transitionKey (t : StateTransition) : String × String :=
  (t.from_state, t.to_state)

/-- A Python dict keyed by `(from_state, to_state)`, embedded as an
association list in insertion order. -/
abbrev TransitionDict := List ((String × String) × StateTransition)

/-- Replaces one stored binding by `(k, v)` when its key is `k`. -/
def overwriteEntry (k : String × String) (v : StateTransition)
    (p : (String × String) × StateTransition) : (String × String) × StateTransition :=
  if p.1 == k then (k, v) else p

/-- One step of Python dict construction: assigning `d[k] = v` overwrites an
existing binding of `k` in place, otherwise appends the binding. -/
def dictInsert (d : TransitionDict) (k : String × String) (v : StateTransition) :
    TransitionDict :=
  if d.any (fun p => p.1 == k) then
    d.map (overwriteEntry k v)
  else
    d ++ [(k, v)]

/-- `{(t.from_state, t.to_state): t for t in transitions}` — the dict built in
`WorkflowEngine.__init__`. -/
def buildTransitionDict (l : List StateTransition) : TransitionDict :=
  l.foldl (fun d t => dictInsert d (transitionKey t) t) []

/-- `self.transitions.get(key)` — dict lookup. -/
def dictGet (d : TransitionDict) (k : String × String) : Option StateTransition :=
  (d.find? (fun p => p.1 == k)).map Prod.snd

/-- `WorkflowEngine.__init__` from `app/workflows/states.py`.  The Python
constructor consists of a single dict comprehension and cannot fail, so the
embedding always returns `Except.ok`. -/
def engine_init (l : List StateTransition) : Except String TransitionDict :=
  Except.ok (buildTransitionDict l)

/-- The module-level singleton `workflow_engine`'s transition dict. -/
def workflow_engine : TransitionDict :=
  buildTransitionDict WORKFLOW_TRANSITIONS

/-- `conditions.get(name, False)` — lookup in the Python conditions dict,
an absent key counts as `False`. -/
def condGet (conditions : List (String × Bool)) (name : String) : Bool :=
  ((conditions.find? (fun p => p.1 == name)).map Prod.snd).getD false

/-- `WorkflowEngine.can_transition` from `app/workflows/states.py`.
Returns `(is_allowed, reason_if_not)`. -/
def can_transition (transitions : TransitionDict) (from_state to_state : String)
    (conditions : List (String × Bool)) (user_role : String) :
    Bool × Option String :=
  match dictGet transitions (from_state, to_state) with
  | none =>
      (false, some ("No transition defined from " ++ from_state ++ " to " ++ to_state))
  | some transition =>
      if user_role ∈ transition.allowed_roles then
        match transition.required_conditions.find?
            (fun condition => !(condGet conditions condition)) with
        | some condition => (false, some ("Required condition not met: " ++ condition))
        | none => (true, none)
      else
        (false, some ("Role " ++ user_role ++ " not allowed for this transition"))

/-- `WorkflowEngine.get_next_states` from `app/workflows/states.py`. -/
def get_next_states (transitions : TransitionDict) (current_state : String) :
    List String :=
  (transitions.filter (fun p => p.1.1 == current_state)).map (fun p => p.1.2)

/-- Settings `AUTO_APPROVE_THRESHOLD: float = 0.95` from `app/config.py`. -/
def AUTO_APPROVE_THRESHOLD : ℚ := 95/100

/-- Settings `MANUAL_REVIEW_THRESHOLD: float = 0.75` from `app/config.py`. -/
def MANUAL_REVIEW_THRESHOLD : ℚ := 75/100

/-- A row of the `documents` relationship (`app/models/document.py`), restricted
to the fields the workflow reads. -/
structure Document where
  document_type : String
  status : String
deriving DecidableEq, Repr

/-- A row of the `verifications` relationship (`app/models/verification.py`),
restricted to the fields the workflow reads; `result` holds the string value of
the `VerificationResult` enum. -/
structure Verification where
  result : String
deriving DecidableEq, Repr

/-- `KYCApplication` ORM object (`app/models/kyc_application.py`), restricted to
the fields read or written by the workflow, approval and scoring code.
`Option` embeds SQL NULL / Python `None`; timestamps are abstract `Nat` ticks;
float scores are exact rationals. -/
structure Application where
  status : String
  document_verification_score : Option ℚ
  face_verification_score : Option ℚ
  overall_confidence_score : Option ℚ
  risk_score : Option ℚ
  risk_level : Option String
  cin_number : Option String
  first_name : Option String
  last_name : Option String
  date_of_birth : Option Nat
  documents : List Document
  verifications : List Verification
  expires_at : Option Nat
  ip_address : String
  reviewed_by_id : Option Nat
  review_notes : Option String
  reviewed_at : Option Nat
  decision_reason : Option String
  decision_made_at : Option Nat
deriving DecidableEq, Repr

/-- The `verification_results: Dict[str, Any]` payload, embedded as an
association list of score entries. -/
abbrev VerificationResults := List (String × ℚ)

/-- Python truthiness of the optional payload: `None` and the empty dict are
falsy. -/
def vrTruthy : Option VerificationResults → Bool
  | none => false
  | some l => !l.isEmpty

/-- `verification_results.get(key, 0)` on the payload. -/
def vrGet (vr : Option VerificationResults) (key : String) (default : ℚ) : ℚ :=
  match vr with
  | none => default
  | some l => (((l.find? (fun p => p.1 == key)).map Prod.snd).getD default)

/-- `key in results` on the payload dict. -/
def vrHas (results : VerificationResults) (key : String) : Bool :=
  (results.find? (fun p => p.1 == key)).isSome

/-- Python truthiness of an optional string column (`None` and `""` are falsy). -/
def strTruthy : Option String → Bool
  | none => false
  | some s => !s.isEmpty

/-- Python truthiness of an optional float column (`None` and `0.0` are falsy). -/
def ratTruthy : Option ℚ → Bool
  | none => false
  | some x => x != 0

/-- `KYCException(error_code, message)` raised by the services
(`app/core/exceptions.py`); `message` carries the optional reason. -/
structure KYCError where
  error_code : String
  message : Option String
deriving DecidableEq, Repr

/-- One `audit_service.log_action` emission for a workflow transition. -/
structure AuditEvent where
  action : String
  old_status : String
  new_status : String
deriving DecidableEq, Repr

/-- `WorkflowService._determine_next_state` from `app/services/workflow_service.py`.
In the FACE_VERIFICATION branch the source reads
`application.overall_confidence_score or 0` (the stored column), not the
payload's overall score. -/
def determine_next_state (application : Application)
    (verification_results : Option VerificationResults) : String :=
  let current := application.status
  if current == "submitted" then
    "document_verification"
  else if current == "document_verification" then
    if vrTruthy verification_results then
      let doc_score := vrGet verification_results "document_verification_score" 0
      if doc_score ≥ AUTO_APPROVE_THRESHOLD then "face_verification"
      else if doc_score ≥ MANUAL_REVIEW_THRESHOLD then "face_verification"
      else "manual_review"
    else current
  else if current == "face_verification" then
    if vrTruthy verification_results then
      let overall := (application.overall_confidence_score).getD 0
      if overall ≥ AUTO_APPROVE_THRESHOLD then "approved"
      else if overall ≥ MANUAL_REVIEW_THRESHOLD then "manual_review"
      else "rejected"
    else current
  else if current == "manual_review" then
    current
  else
    current

/-- `WorkflowService._has_required_documents`. -/
def has_required_documents (application : Application) : Bool :=
  ["cin_front", "cin_back", "selfie"].all
    (fun dtype => (application.documents.map (fun d => d.document_type)).contains dtype)

/-- `WorkflowService._has_customer_data` (Python `all([...])` over truthiness of
the four columns; `date_of_birth` is a datetime, truthy whenever non-NULL). -/
def has_customer_data (application : Application) : Bool :=
  strTruthy application.cin_number &&
  strTruthy application.first_name &&
  strTruthy application.last_name &&
  application.date_of_birth.isSome

/-- `WorkflowService._documents_verified`. -/
def documents_verified (application : Application) : Bool :=
  (application.documents.filter (fun d => d.status == "verified")).length ≥ 2

/-- `WorkflowService._all_checks_passed`. -/
def all_checks_passed (application : Application)
    (verification_results : Option VerificationResults) : Bool :=
  if !(vrTruthy verification_results) then false
  else if application.verifications.isEmpty then false
  else application.verifications.all (fun v => v.result == "pass")

/-- `WorkflowService._is_expired`; `now` stands for `datetime.utcnow()`. -/
def is_expired (application : Application) (now : Nat) : Bool :=
  match application.expires_at with
  | none => false
  | some e => now > e

/-- `WorkflowService._build_transition_conditions`. -/
def build_transition_conditions (application : Application)
    (verification_results : Option VerificationResults) (now : Nat) :
    List (String × Bool) :=
  let base : List (String × Bool) := [
    ("has_required_documents", has_required_documents application),
    ("has_customer_data", has_customer_data application),
    ("documents_uploaded", application.documents.length > 0),
    ("documents_verified", documents_verified application),
    ("all_checks_passed", all_checks_passed application verification_results),
    ("application_expired", is_expired application now)]
  if vrTruthy verification_results then
    let overall := vrGet verification_results "overall_confidence_score" 0
    base ++ [
      ("high_confidence_score", decide (overall ≥ AUTO_APPROVE_THRESHOLD)),
      ("medium_confidence_score", decide (overall ≥ MANUAL_REVIEW_THRESHOLD)),
      ("low_confidence_score", decide (overall < MANUAL_REVIEW_THRESHOLD)),
      ("failed_verification", decide (overall < 5/10))]
  else
    base ++ [
      ("high_confidence_score", false),
      ("medium_confidence_score", false),
      ("low_confidence_score", false),
      ("failed_verification", false)]

/-- `WorkflowService._update_verification_scores`. -/
def update_verification_scores (application : Application)
    (results : VerificationResults) : Application :=
  let a1 :=
    if vrHas results "document_verification_score" then
      { application with
          document_verification_score :=
            some (vrGet (some results) "document_verification_score" 0) }
    else application
  let a2 :=
    if vrHas results "face_verification_score" then
      { a1 with
          face_verification_score :=
            some (vrGet (some results) "face_verification_score" 0) }
    else a1
  let a3 :=
    if vrHas results "overall_confidence_score" then
      { a2 with
          overall_confidence_score :=
            some (vrGet (some results) "overall_confidence_score" 0) }
    else a2
  if vrHas results "risk_score" then
    { a3 with risk_score := some (vrGet (some results) "risk_score" 0) }
  else a3

instance : DecidableEq (Except KYCError Application) := fun a b =>
  match a, b with
  | Except.ok x, Except.ok y =>
      match decEq x y with
      | isTrue h => isTrue (h ▸ rfl)
      | isFalse h => isFalse (fun hh => h (Except.ok.inj hh))
  | Except.error e, Except.error f =>
      match decEq e f with
      | isTrue h => isTrue (h ▸ rfl)
      | isFalse h => isFalse (fun hh => h (Except.error.inj hh))
  | Except.ok _, Except.error _ => isFalse (fun hh => Except.noConfusion hh)
  | Except.error _, Except.ok _ => isFalse (fun hh => Except.noConfusion hh)

/-- Full observable outcome of one `advance_workflow` call: the returned value
or raised exception, the final state of the ORM `Application` object, the audit
events emitted, and the catalog lookups performed (each `can_transition` call
performs exactly one lookup of its `(from, to)` pair). -/
structure AdvanceOutcome where
  result : Except KYCError Application
  finalApp : Application
  audits : List AuditEvent
  catalogLookups : List (String × String)
deriving DecidableEq, Repr

/-- `WorkflowService.advance_workflow` from `app/services/workflow_service.py`,
for an application that exists (the repository lookup is external to the core).
The source validates (`_determine_next_state`, `_build_transition_conditions`,
`can_transition`, raise on failure) strictly before assigning
`application.status` and the score columns. -/
def advance_workflow (application : Application)
    (verification_results : Option VerificationResults) (now : Nat) :
    AdvanceOutcome :=
  let current_state := application.status
  let next_state := determine_next_state application verification_results
  if next_state == current_state then
    { result := Except.ok application, finalApp := application,
      audits := [], catalogLookups := [] }
  else
    let conditions := build_transition_conditions application verification_results now
    let check := can_transition workflow_engine current_state next_state conditions "system"
    if check.1 then
      let old_status := application.status
      let a1 := { application with status := next_state }
      let a2 :=
        if vrTruthy verification_results then
          update_verification_scores a1 (verification_results.getD [])
        else a1
      { result := Except.ok a2, finalApp := a2,
        audits := [{ action := "WORKFLOW_TRANSITION",
                     old_status := old_status, new_status := next_state }],
        catalogLookups := [(current_state, next_state)] }
    else
      { result := Except.error { error_code := "INVALID_TRANSITION", message := check.2 },
        finalApp := application, audits := [],
        catalogLookups := [(current_state, next_state)] }

/-- `User` ORM object restricted to the fields the approval code reads. -/
structure User where
  id : Nat
  role : String
deriving DecidableEq, Repr

/-- `KYCService.approve_application` from `app/services/kyc_service.py`, for an
application that exists; `now` stands for `datetime.utcnow()`. -/
def approve_application (application : Application) (user : User)
    (notes : Option String) (now : Nat) : Except KYCError Application :=
  if user.role ∈ (["agent", "supervisor", "admin"] : List String) then
    Except.ok { application with
      status := "approved",
      reviewed_by_id := some user.id,
      review_notes := notes,
      reviewed_at := some now,
      decision_made_at := some now }
  else
    Except.error { error_code := "FORBIDDEN", message := some "Insufficient permissions" }

/-- `KYCService.reject_application` from `app/services/kyc_service.py`. -/
def reject_application (application : Application) (user : User)
    (reason : String) (notes : Option String) (now : Nat) :
    Except KYCError Application :=
  if user.role ∈ (["agent", "supervisor", "admin"] : List String) then
    Except.ok { application with
      status := "rejected",
      reviewed_by_id := some user.id,
      review_notes := notes,
      decision_reason := some reason,
      reviewed_at := some now,
      decision_made_at := some now }
  else
    Except.error { error_code := "FORBIDDEN", message := some "Insufficient permissions" }

/-- `KYCService._determine_risk_level`. -/
def determine_risk_level (score : ℚ) : String :=
  if score ≥ 9/10 then "low"
  else if score ≥ 75/100 then "medium"
  else if score ≥ 5/10 then "high"
  else "critical"

/-- `KYCService._check_fraud_indicators`; `duplicate_count` stands for
`repo.count_by_ip(application.ip_address)`. -/
def check_fraud_indicators (duplicate_count : Nat) : ℚ :=
  let fraud_score : ℚ := 1
  let fraud_score := if duplicate_count > 5 then fraud_score - 3/10 else fraud_score
  max 0 fraud_score

/-- `KYCService.calculate_risk_score` from `app/services/kyc_service.py`.
Returns the computed overall score together with the updated application.
The document and face sub-scores enter only when their columns are truthy
(non-NULL and nonzero); the fraud score is always appended; the divisor is
`sum(weights.values())`. -/
def calculate_risk_score (application : Application) (duplicate_count : Nat) :
    ℚ × Application :=
  let wdocument : ℚ := 4/10
  let wface : ℚ := 4/10
  let wfraud : ℚ := 2/10
  let scores : List ℚ :=
    (if ratTruthy application.document_verification_score then
      [(application.document_verification_score).getD 0 * wdocument] else []) ++
    (if ratTruthy application.face_verification_score then
      [(application.face_verification_score).getD 0 * wface] else [])
  let fraud_score := check_fraud_indicators duplicate_count
  let scores := scores ++ [fraud_score * wfraud]
  let overall_score :=
    if !scores.isEmpty then scores.sum / (wdocument + wface + wfraud) else 0
  let application := { application with
    overall_confidence_score := some overall_score,
    risk_level := some (determine_risk_level overall_score) }
  (overall_score, application)

/-- The spec's aggregation formula, stated for comparison with
`calculate_risk_score`: `(docScore*0.4 + faceScore*0.4 + fraudScore*0.2)`
divided by the sum of the weights of the sub-scores actually present,
yielding `0.0` when no sub-scores exist. -/
def spec_overall_aggregate (docScore faceScore fraudScore : Option ℚ) : ℚ :=
  let num := (docScore.getD 0) * (4/10) + (faceScore.getD 0) * (4/10) +
    (fraudScore.getD 0) * (2/10)
  let den := (if docScore.isSome then (4 : ℚ)/10 else 0) +
    (if faceScore.isSome then (4 : ℚ)/10 else 0) +
    (if fraudScore.isSome then (2 : ℚ)/10 else 0)
  if den = 0 then 0 else num / den

/-! Concrete fixtures used by witnesses and counterexamples. -/

/-- A complete application in `draft` state with no documents and no scores. -/
def baseApp : Application := {
  status := "draft",
  document_verification_score := none,
  face_verification_score := none,
  overall_confidence_score := none,
  risk_score := none,
  risk_level := none,
  cin_number := some "AB123456",
  first_name := some "Jane",
  last_name := some "Doe",
  date_of_birth := some 0,
  documents := [],
  verifications := [],
  expires_at := none,
  ip_address := "10.0.0.1",
  reviewed_by_id := none,
  review_notes := none,
  reviewed_at := none,
  decision_reason := none,
  decision_made_at := none }

/-- An application already in the terminal `rejected` state. -/
def appRejected : Application := { baseApp with status := "rejected" }

/-- An agent user. -/
def agentUser : User := { id := 1, role := "agent" }

/-- An application sitting in `face_verification` with no stored overall score. -/
def appFace : Application := { baseApp with status := "face_verification" }

/-- A verification payload whose overall confidence score is 0.96. -/
def vr96 : VerificationResults := [("overall_confidence_score", 24/25)]

/-- An application in `submitted` state with no documents uploaded. -/
def appSubmitted : Application := { baseApp with status := "submitted" }

/-- The `rejected` application after `approve_application` by `agentUser` at tick 0. -/
def appRejectedApproved : Application := { appRejected with
  status := "approved",
  reviewed_by_id := some 1,
  reviewed_at := some 0,
  decision_made_at := some 0 }

/-- An application in `face_verification` whose stored overall score is 0.96. -/
def appFaceStored96 : Application := { baseApp with
  status := "face_verification",
  overall_confidence_score := some (24/25) }

/-- The condition map built for `appFace` with payload `vr96` at tick 0. -/
def condsFace96 : List (String × Bool) := [
  ("has_required_documents", false),
  ("has_customer_data", true),
  ("documents_uploaded", false),
  ("documents_verified", false),
  ("all_checks_passed", false),
  ("application_expired", false),
  ("high_confidence_score", true),
  ("medium_confidence_score", true),
  ("low_confidence_score", false),
  ("failed_verification", false)]

/-- The error raised by `advance_workflow` for `appFace` with payload `vr96`. -/
def errFailedVerification : KYCError := {
  error_code := "INVALID_TRANSITION",
  message := some "Required condition not met: failed_verification" }

/-- The observable outcome of `advance_workflow appFace (some vr96) 0`. -/
def face96Outcome : AdvanceOutcome := {
  result := Except.error errFailedVerification,
  finalApp := appFace,
  audits := [],
  catalogLookups := [("face_verification", "rejected")] }

/-- An application with only a document score (0.8) present. -/
def appDoc08 : Application := { baseApp with
  document_verification_score := some (8/10) }

/-- First of two conflicting definitions for the pair `(draft, submitted)`. -/
def dupFirst : StateTransition := {
  from_state := "draft",
  to_state := "submitted",
  required_conditions := ["first_condition"],
  allowed_roles := ["agent"] }

/-- Second of two conflicting definitions for the pair `(draft, submitted)`. -/
def dupSecond : StateTransition := {
  from_state := "draft",
  to_state := "submitted",
  required_conditions := ["second_condition"],
  allowed_roles := ["supervisor"] }

/-- A transition list with two definitions for the same `(from, to)` pair. -/
def dupTransitions : List StateTransition := [dupFirst, dupSecond]

/-! Helper lemmas about the dict embedding. -/

theorem dictGet_nil (k : String × String) : dictGet [] k = none := rfl

theorem dictGet_cons (p : (String × String) × StateTransition) (d : TransitionDict)
    (k : String × String) :
    dictGet (p :: d) k = if p.1 == k then some p.2 else dictGet d k := by
  by_cases h : p.1 = k <;> simp [dictGet, List.find?_cons, h]

theorem dictGet_append (d e : TransitionDict) (k : String × String) :
    dictGet (d ++ e) k = (dictGet d k).or (dictGet e k) := by
  simp only [dictGet, List.find?_append]
  cases List.find? (fun p => p.1 == k) d <;> simp

theorem dictGet_map_ne (d : TransitionDict) (k kk : String × String)
    (v : StateTransition) (h : k ≠ kk) :
    dictGet (d.map (overwriteEntry kk v)) k = dictGet d k := by
  induction d with
  | nil => rfl
  | cons p ds ih =>
    rw [List.map_cons]
    by_cases hp : p.1 = kk
    · have h1 : (kk == k) = false := by
        rw [beq_eq_false_iff_ne]
        exact fun hh => h hh.symm
      have h2 : (p.1 == k) = false := by
        rw [beq_eq_false_iff_ne, hp]
        exact fun hh => h hh.symm
      rw [show overwriteEntry kk v p = (kk, v) from by simp [overwriteEntry, hp]]
      rw [dictGet_cons, dictGet_cons]
      simp only [h1, h2, Bool.false_eq_true, if_false]
      exact ih
    · rw [show overwriteEntry kk v p = p from by simp [overwriteEntry, hp]]
      rw [dictGet_cons, dictGet_cons]
      by_cases hpk : p.1 = k
      · simp [hpk]
      · have h2 : (p.1 == k) = false := beq_eq_false_iff_ne.mpr hpk
        simp only [h2, Bool.false_eq_true, if_false]
        exact ih

theorem dictGet_map_overwrite (d : TransitionDict) (kk : String × String)
    (v : StateTransition) (h : d.any (fun p => p.1 == kk) = true) :
    dictGet (d.map (overwriteEntry kk v)) kk = some v := by
  induction d with
  | nil => simp at h
  | cons p ds ih =>
    rw [List.map_cons]
    by_cases hp : p.1 = kk
    · rw [show overwriteEntry kk v p = (kk, v) from by simp [overwriteEntry, hp]]
      rw [dictGet_cons]
      simp
    · rw [show overwriteEntry kk v p = p from by simp [overwriteEntry, hp]]
      rw [dictGet_cons]
      have h2 : (p.1 == kk) = false := beq_eq_false_iff_ne.mpr hp
      simp only [h2, Bool.false_eq_true, if_false]
      apply ih
      rw [List.any_cons, h2, Bool.false_or] at h
      exact h

theorem dictGet_dictInsert (d : TransitionDict) (kk : String × String)
    (v : StateTransition) (k : String × String) :
    dictGet (dictInsert d kk v) k = if k = kk then some v else dictGet d k := by
  unfold dictInsert
  by_cases ha : d.any (fun p => p.1 == kk) = true
  · rw [if_pos ha]
    by_cases hk : k = kk
    · subst hk
      simp [dictGet_map_overwrite d k v ha]
    · simp [dictGet_map_ne d k kk v hk, hk]
  · rw [if_neg ha]
    rw [dictGet_append]
    by_cases hk : k = kk
    · subst hk
      have hfind : List.find? (fun p => p.1 == k) d = none := by
        rw [List.find?_eq_none]
        intro p hp hpk
        exact ha (List.any_eq_true.mpr ⟨p, hp, hpk⟩)
      simp [dictGet, hfind, dictGet_cons]
    · have h1 : (kk == k) = false := by
        rw [beq_eq_false_iff_ne]
        exact fun hh => hk hh.symm
      simp [dictGet_cons, h1, hk, dictGet_nil, Option.or_none]

theorem dictGet_build (l : List StateTransition) (d : TransitionDict)
    (k : String × String) :
    dictGet (l.foldl (fun d t => dictInsert d (transitionKey t) t) d) k =
      (l.reverse.find? (fun t => transitionKey t == k)).or (dictGet d k) := by
  induction l generalizing d with
  | nil => simp
  | cons t ts ih =>
    rw [List.foldl_cons, List.reverse_cons, List.find?_append, ih, dictGet_dictInsert,
      Option.or_assoc]
    by_cases hk : k = transitionKey t
    · have h1 : (transitionKey t == k) = true := by simp [hk]
      rw [if_pos hk]
      simp [List.find?_cons, h1]
    · have h1 : (transitionKey t == k) = false := by
        rw [beq_eq_false_iff_ne]
        exact fun hh => hk hh.symm
      rw [if_neg hk]
      simp [List.find?_cons, h1]

/-! Claim theorems. -/

/-- C5: `can_transition` returns allowed exactly when the `(from, to)` pair is in
the catalog, the role is in the transition's allowed-roles list, and every
required condition name maps to `true` in the supplied condition map (absent
names count as `false`); the conditions are a pure conjunction, and a transition
with an empty required-conditions list is allowed to any role in its role list
(the condition clause is then vacuous). -/
theorem c5_can_transition_iff (from_state to_state : String)
    (conditions : List (String × Bool)) (user_role : String) :
    (can_transition workflow_engine from_state to_state conditions user_role).1 = true ↔
      ∃ tr, dictGet workflow_engine (from_state, to_state) = some tr ∧
        user_role ∈ tr.allowed_roles ∧
        ∀ c ∈ tr.required_conditions, condGet conditions c = true := by
  cases hget : dictGet workflow_engine (from_state, to_state) with
  | none => simp [can_transition, hget]
  | some tr =>
    by_cases hr : user_role ∈ tr.allowed_roles
    · cases hf : tr.required_conditions.find? (fun c => !(condGet conditions c)) with
      | some c =>
        have hc_mem := List.mem_of_find?_eq_some hf
        have hc_val := List.find?_some hf
        simp only [Bool.not_eq_eq_eq_not, Bool.not_true] at hc_val
        simp only [can_transition, hget, if_pos hr, hf]
        constructor
        · intro hfalse
          simp at hfalse
        · rintro ⟨tr2, htr2, hrole2, hall⟩
          injection htr2 with he
          subst he
          rw [hall c hc_mem] at hc_val
          simp at hc_val
      | none =>
        simp only [can_transition, hget, if_pos hr, hf]
        constructor
        · intro _
          refine ⟨tr, rfl, hr, fun c hc => ?_⟩
          have := List.find?_eq_none.mp hf c hc
          simpa using this
        · intro _
          trivial
    · simp only [can_transition, hget, if_neg hr]
      constructor
      · intro hfalse
        simp at hfalse
      · rintro ⟨tr2, htr2, hrole2, _⟩
        injection htr2 with he
        subst he
        exact absurd hrole2 hr

/-- C6: for every `(from, to)` pair with no catalog entry, `can_transition`
returns `(false, reason)` with a reason naming the undefined pair, for every
role and every condition map. -/
theorem c6_no_transition_defined (from_state to_state : String)
    (conditions : List (String × Bool)) (user_role : String)
    (h : dictGet workflow_engine (from_state, to_state) = none) :
    can_transition workflow_engine from_state to_state conditions user_role =
      (false, some ("No transition defined from " ++ from_state ++ " to " ++ to_state)) := by
  simp [can_transition, h]

/-- Witness for C6 at the pair `(approved, draft)`, which has no catalog entry. -/
theorem c6_witness :
    can_transition workflow_engine "approved" "draft" [] "admin" =
      (false, some "No transition defined from approved to draft") ∧
    dictGet workflow_engine ("approved", "draft") = none :=
  ⟨(c6_no_transition_defined "approved" "draft" [] "admin" (by decide)).trans (by decide),
   by decide⟩

/-- C9: a state `t` is a member of `get_next_states s` exactly when the catalog
lookup for the pair `(s, t)` is defined, and the returned list never contains
duplicates. -/
theorem c9_next_states_exact :
    (∀ s t, t ∈ get_next_states workflow_engine s ↔
      (dictGet workflow_engine (s, t)).isSome = true) ∧
    (∀ s, (get_next_states workflow_engine s).Nodup) := by
  constructor
  · intro s t
    simp only [get_next_states, List.mem_map, List.mem_filter, dictGet,
      Option.isSome_map', List.find?_isSome, beq_iff_eq, Prod.ext_iff]
    constructor
    · rintro ⟨p, ⟨hmem, h1⟩, h2⟩
      exact ⟨p, hmem, h1, h2⟩
    · rintro ⟨p, hmem, h1, h2⟩
      exact ⟨p, ⟨hmem, h1⟩, h2⟩
  · intro s
    have hnd : workflow_engine.Nodup := by decide
    have hkeys : (workflow_engine.map Prod.fst).Nodup := by decide
    simp only [get_next_states]
    apply List.Nodup.map_on
    · intro x hx y hy hxy
      have hxs : x.1.1 = s := by simpa using (List.mem_filter.mp hx).2
      have hys : y.1.1 = s := by simpa using (List.mem_filter.mp hy).2
      have hkeq : x.1 = y.1 := Prod.ext (hxs.trans hys.symm) hxy
      have hsub : (workflow_engine.filter (fun p => p.1.1 == s)).Sublist workflow_engine :=
        List.filter_sublist _
      have hkeysf : ((workflow_engine.filter (fun p => p.1.1 == s)).map Prod.fst).Nodup :=
        List.Nodup.sublist (List.Sublist.map Prod.fst hsub) hkeys
      exact List.inj_on_of_nodup_map hkeysf hx hy hkeq
    · exact List.Nodup.filter _ hnd

/-- C7 counterexample: on a transition list with two definitions for the pair
`(draft, submitted)`, engine construction succeeds (no abort), and the catalog
silently resolves the duplicate to the later definition. -/
theorem c7_counterexample :
    (engine_init dupTransitions).isOk = true ∧
    dictGet (buildTransitionDict dupTransitions) ("draft", "submitted") = some dupSecond ∧
    dupFirst ≠ dupSecond :=
  ⟨rfl, by decide, by decide⟩

/-- C7 amended: engine construction never rejects a configuration; a duplicate
`(from, to)` pair is resolved at load time by the later list entry silently
overwriting the earlier one — the catalog maps each key to the last transition
in the list with that key. -/
theorem c7_amended_load_resolves_duplicates (l : List StateTransition)
    (k : String × String) :
    (engine_init l).isOk = true ∧
    dictGet (buildTransitionDict l) k =
      l.reverse.find? (fun t => transitionKey t == k) := by
  refine ⟨rfl, ?_⟩
  have h := dictGet_build l [] k
  simpa [buildTransitionDict, dictGet_nil, Option.or_none] using h

/-- C1 counterexample: an application already in the terminal `rejected` state
is moved to `approved` by the approve entry point for an agent actor; no
`can_transition` check restricts it to MANUAL_REVIEW. -/
theorem c1_counterexample :
    approve_application appRejected agentUser none 0 = Except.ok appRejectedApproved ∧
    appRejected.status = "rejected" ∧
    appRejectedApproved.status = "approved" :=
  ⟨by decide, rfl, rfl⟩

/-- C1 amended: `approve_application` and `reject_application` check only that
the actor's role is agent, supervisor or admin; they never call
`WorkflowEngine.can_transition` and unconditionally overwrite the state with
`approved` / `rejected` from every state, terminal states included. -/
theorem c1_amended_approve_reject_unguarded (app : Application) (u : User)
    (notes : Option String) (reason : String) (now : Nat)
    (h : u.role ∈ (["agent", "supervisor", "admin"] : List String)) :
    (approve_application app u notes now).toOption.map Application.status =
      some "approved" ∧
    (reject_application app u reason notes now).toOption.map Application.status =
      some "rejected" := by
  constructor
  · simp [approve_application, h, Except.toOption]
  · simp [reject_application, h, Except.toOption]

/-- Witness for C1 amended: the agent approves/rejects the terminal application. -/
theorem c1_witness :
    agentUser.role ∈ (["agent", "supervisor", "admin"] : List String) ∧
    (approve_application appRejected agentUser none 0).toOption.map Application.status =
      some "approved" ∧
    (reject_application appRejected agentUser "fraud" none 0).toOption.map Application.status =
      some "rejected" :=
  ⟨by decide, c1_amended_approve_reject_unguarded appRejected agentUser none "fraud" 0 (by decide)⟩

/-- C8: whenever the automatically selected next state equals the current state
— in particular for every application in APPROVED, REJECTED, EXPIRED,
MANUAL_REVIEW or DRAFT — `advance_workflow` is a no-op: it returns the
application with every field unchanged, performs no catalog lookup and emits no
audit event. -/
theorem c8_advance_noop (app : Application) (vr : Option VerificationResults)
    (now : Nat)
    (h : determine_next_state app vr = app.status ∨
      app.status ∈ (["approved", "rejected", "expired", "manual_review", "draft"] :
        List String)) :
    advance_workflow app vr now =
      { result := Except.ok app, finalApp := app, audits := [], catalogLookups := [] } := by
  have hd : determine_next_state app vr = app.status := by
    rcases h with h | h
    · exact h
    · simp only [List.mem_cons, List.not_mem_nil, or_false] at h
      rcases h with h | h | h | h | h <;> simp [determine_next_state, h]
  simp [advance_workflow, hd]

/-- Witness for C8: advancing the terminal `rejected` application is a no-op. -/
theorem c8_witness :
    appRejected.status ∈ (["approved", "rejected", "expired", "manual_review", "draft"] :
      List String) ∧
    advance_workflow appRejected none 5 =
      { result := Except.ok appRejected, finalApp := appRejected,
        audits := [], catalogLookups := [] } :=
  ⟨by decide, c8_advance_noop appRejected none 5 (Or.inr (by decide))⟩

/-- C2: if the `can_transition` check inside `advance_workflow` returns
disallowed (for a next state differing from the current one), `advance_workflow`
raises a workflow error carrying the engine's reason and the application object
is left exactly as it was: no state field and no score field is written, and no
audit event is emitted — validation happens strictly before any mutation. -/
theorem c2_failed_validation_no_mutation (app : Application)
    (vr : Option VerificationResults) (now : Nat)
    (h1 : determine_next_state app vr ≠ app.status)
    (h2 : (can_transition workflow_engine app.status (determine_next_state app vr)
      (build_transition_conditions app vr now) "system").1 = false) :
    advance_workflow app vr now =
      ⟨Except.error ⟨"INVALID_TRANSITION",
          (can_transition workflow_engine app.status (determine_next_state app vr)
            (build_transition_conditions app vr now) "system").2⟩,
        app, [], [(app.status, determine_next_state app vr)]⟩ := by
  have hne : (determine_next_state app vr == app.status) = false :=
    beq_eq_false_iff_ne.mpr h1
  simp [advance_workflow, hne, h2]

/-- Witness for C2: an application in `submitted` state with no uploaded
documents fails the `documents_uploaded` condition and is left unchanged. -/
theorem c2_witness :
    determine_next_state appSubmitted none ≠ appSubmitted.status ∧
    (can_transition workflow_engine appSubmitted.status
      (determine_next_state appSubmitted none)
      (build_transition_conditions appSubmitted none 0) "system").1 = false ∧
    advance_workflow appSubmitted none 0 =
      ⟨Except.error ⟨"INVALID_TRANSITION",
          some "Required condition not met: documents_uploaded"⟩,
        appSubmitted, [], [("submitted", "document_verification")]⟩ :=
  ⟨by decide, by decide,
    (c2_failed_validation_no_mutation appSubmitted none 0 (by decide) (by decide)).trans
      (by decide)⟩

/-- C3 amended: for an application in FACE_VERIFICATION and a truthy payload,
`_determine_next_state` selects the next state from the application's stored
`overall_confidence_score` column (absent treated as 0), not from the payload's
overall score: APPROVED at ≥ 0.95, MANUAL_REVIEW at ≥ 0.75, else REJECTED. -/
theorem c3_amended_face_uses_stored_score (app : Application)
    (vr : Option VerificationResults)
    (h1 : app.status = "face_verification") (h2 : vrTruthy vr = true) :
    determine_next_state app vr =
      (if (app.overall_confidence_score).getD 0 ≥ AUTO_APPROVE_THRESHOLD then "approved"
       else if (app.overall_confidence_score).getD 0 ≥ MANUAL_REVIEW_THRESHOLD then
         "manual_review"
       else "rejected") := by
  simp [determine_next_state, h1, h2]

/-- Witness for C3 amended: with a stored overall score of 0.96 the selected
next state is `approved`. -/
theorem c3_witness :
    appFaceStored96.status = "face_verification" ∧
    vrTruthy (some vr96) = true ∧
    determine_next_state appFaceStored96 (some vr96) = "approved" :=
  ⟨rfl, rfl,
    (c3_amended_face_uses_stored_score appFaceStored96 (some vr96) rfl rfl).trans
      (by norm_num [appFaceStored96, baseApp, AUTO_APPROVE_THRESHOLD])⟩

/-- C3 counterexample: an application in FACE_VERIFICATION with no stored
overall score, advanced with a payload whose overall score is 0.96, is NOT
transitioned to APPROVED — the stale stored score selects `rejected`, the
engine then rejects that transition (the payload's score fails the
`failed_verification` condition), and `advance_workflow` raises instead. -/
theorem c3_counterexample :
    advance_workflow appFace (some vr96) 0 = face96Outcome ∧
    face96Outcome.result.isOk = false ∧
    face96Outcome.audits = [] := by
  have hdet : determine_next_state appFace (some vr96) = "rejected" := by
    norm_num [determine_next_state, appFace, baseApp, vrTruthy, vr96,
      AUTO_APPROVE_THRESHOLD, MANUAL_REVIEW_THRESHOLD]
    decide
  have ha : decide ((24 : ℚ)/25 ≥ AUTO_APPROVE_THRESHOLD) = true := by
    norm_num [AUTO_APPROVE_THRESHOLD]
  have ha2 : decide (AUTO_APPROVE_THRESHOLD ≤ (24 : ℚ)/25) = true := by
    norm_num [AUTO_APPROVE_THRESHOLD]
  have hm : decide ((24 : ℚ)/25 ≥ MANUAL_REVIEW_THRESHOLD) = true := by
    norm_num [MANUAL_REVIEW_THRESHOLD]
  have hm2 : decide (MANUAL_REVIEW_THRESHOLD ≤ (24 : ℚ)/25) = true := by
    norm_num [MANUAL_REVIEW_THRESHOLD]
  have hl : decide ((24 : ℚ)/25 < MANUAL_REVIEW_THRESHOLD) = false := by
    norm_num [MANUAL_REVIEW_THRESHOLD]
  have hf : decide ((24 : ℚ)/25 < 5/10) = false := by norm_num
  have hconds : build_transition_conditions appFace (some vr96) 0 = condsFace96 := by
    simp [build_transition_conditions, vrTruthy, vrGet, vr96, appFace, baseApp,
      has_required_documents, has_customer_data, documents_verified,
      all_checks_passed, is_expired, strTruthy, condsFace96,
      ha, ha2, hm, hm2, hl, hf]
    decide
  have hcan : can_transition workflow_engine "face_verification" "rejected"
      condsFace96 "system" =
      (false, some "Required condition not met: failed_verification") := by decide
  refine ⟨?_, rfl, rfl⟩
  simp only [advance_workflow]
  rw [hdet, hconds]
  rw [show appFace.status = "face_verification" from rfl]
  rw [hcan]
  decide

/-- C4 counterexample: with only a document score of 0.8 present (face and
fraud absent in the claim's sense), the code computes 0.52 — the always-present
fraud term and the constant divisor 1.0 — while the spec's renormalizing
formula yields 0.8; the two disagree. -/
theorem c4_counterexample :
    (calculate_risk_score appDoc08 0).1 = 13/25 ∧
    spec_overall_aggregate (some (8/10)) none none = 4/5 ∧
    (13 : ℚ)/25 ≠ 4/5 := by
  refine ⟨?_, ?_, by norm_num⟩
  · norm_num [calculate_risk_score, ratTruthy, check_fraud_indicators, appDoc08, baseApp]
  · norm_num [spec_overall_aggregate]

/-- C4 amended: the aggregation divides by the constant total weight
`0.4 + 0.4 + 0.2 = 1` (no renormalization to the weights actually present),
and the fraud sub-score is always included, so the result is the plain
weighted sum of the truthy sub-scores plus the fraud term. -/
theorem c4_amended_no_renormalization (app : Application) (duplicate_count : Nat) :
    (calculate_risk_score app duplicate_count).1 =
      (if ratTruthy app.document_verification_score then
        (app.document_verification_score).getD 0 * (4/10) else 0) +
      (if ratTruthy app.face_verification_score then
        (app.face_verification_score).getD 0 * (4/10) else 0) +
      check_fraud_indicators duplicate_count * (2/10) := by
  cases hd : ratTruthy app.document_verification_score <;>
    cases hf : ratTruthy app.face_verification_score <;>
    simp [calculate_risk_score, hd, hf] <;>
    norm_num <;>
    ring

/-- C10: a document (respectively face) verification score equal to 0.0 is
treated by the risk-score aggregation exactly as an absent score — the
computed overall score is identical to that of an application with the score
column NULL. -/
theorem c10_zero_score_treated_as_absent (app : Application) (duplicate_count : Nat) :
    (calculate_risk_score { app with document_verification_score := some 0 }
        duplicate_count).1 =
      (calculate_risk_score { app with document_verification_score := none }
        duplicate_count).1 ∧
    (calculate_risk_score { app with face_verification_score := some 0 }
        duplicate_count).1 =
      (calculate_risk_score { app with face_verification_score := none }
        duplicate_count).1 := by
  constructor <;> simp [calculate_risk_score, ratTruthy]

end KYC

